import Mathlib

/-!
Shallow embedding of the eval-hub evaluation-job orchestration core:
the status aggregator (internal/storage/common), the SQL job store
(internal/storage/sql) and the Kubernetes dispatcher
(internal/runtimes/k8s), together with theorems checking the
natural-language specification against this embedding.

Go `State` and `OverallState` are string types; they are embedded as
`String` with the named constants of pkg/api/evaluations.go.
-/

namespace EvalHub

/-- Go type `State` (pkg/api/evaluations.go): a string-valued enum. -/
abbrev State := String

def StatePending   : State := "pending"
def StateRunning   : State := "running"
def StateCompleted : State := "completed"
def StateFailed    : State := "failed"
def StateCancelled : State := "cancelled"

/-- Go type `OverallState` (pkg/api/evaluations.go): a string-valued enum. -/
abbrev OverallState := String

def OverallStatePending         : OverallState := StatePending
def OverallStateRunning         : OverallState := StateRunning
def OverallStateCompleted       : OverallState := StateCompleted
def OverallStateFailed          : OverallState := StateFailed
def OverallStateCancelled       : OverallState := StateCancelled
def OverallStatePartiallyFailed : OverallState := "partially_failed"

/-- `GetOverallState` (pkg/api/evaluations.go): parses a string into a
valid overall state, an error otherwise. -/
def GetOverallState (s : String) : Except String OverallState :=
  if s == OverallStatePending then .ok OverallStatePending
  else if s == OverallStateRunning then .ok OverallStateRunning
  else if s == OverallStateCompleted then .ok OverallStateCompleted
  else if s == OverallStateFailed then .ok OverallStateFailed
  else if s == OverallStateCancelled then .ok OverallStateCancelled
  else if s == OverallStatePartiallyFailed then .ok OverallStatePartiallyFailed
  else .error ("invalid overall state: " ++ s)

/-- `MessageInfo` (pkg/api/evaluations.go). -/
structure MessageInfo where
  message : String
  messageCode : String
deriving DecidableEq, Repr

/-- constants.MESSAGE_CODE_EVALUATION_JOB_UPDATED
(internal/constants/message_codes.go). -/
def MESSAGE_CODE_EVALUATION_JOB_UPDATED : String := "evaluation_job_updated"

/-- `ModelRef` (pkg/api/evaluations.go). -/
structure ModelRef where
  url : String
  name : String
deriving DecidableEq, Repr

/-- `BenchmarkConfig` (pkg/api/evaluations.go): embeds `Ref` (giving the
benchmark id) plus the provider id and a free-form parameter map; the
`map[string]any` parameter map is embedded as an association list of
opaque string values. -/
structure BenchmarkConfig where
  id : String
  providerID : String
  parameters : List (String × String) := []
deriving DecidableEq, Repr

/-- `ExperimentConfig` (pkg/api/evaluations.go). -/
structure ExperimentConfig where
  name : String := ""
  tags : List (String × String) := []
  artifactLocation : String := ""
deriving DecidableEq, Repr

/-- `EvaluationJobConfig` (pkg/api/evaluations.go): model ref, ordered
benchmark list, optional collection/experiment/timeout/retry fields. -/
structure EvaluationJobConfig where
  model : ModelRef
  benchmarks : List BenchmarkConfig
  collection : String := ""
  experiment : Option ExperimentConfig := none
  timeoutMinutes : Option Int := none
  retryAttempts : Option Int := none
deriving DecidableEq, Repr

/-- `BenchmarkStatus`. Modelled from the spec: the current version of
this pkg/api type is not under src/ (an older revision is); fields are
taken from its uses in the aggregator and the SQL store: composite key
(provider id, benchmark id), state, optional error message,
start/completion timestamps, metrics/artifacts maps, external run
reference and log location. Timestamps are abstracted as naturals and
the `map[string]any` fields as association lists of opaque strings. -/
structure BenchmarkStatus where
  providerID : String
  id : String
  status : State
  metrics : List (String × String) := []
  artifacts : List (String × String) := []
  errorMessage : Option MessageInfo := none
  startedAt : Option Nat := none
  completedAt : Option Nat := none
  mlflowRunID : String := ""
  logsPath : String := ""
deriving DecidableEq, Repr

/-- `BenchmarkResult`. Modelled from the spec: the pkg/api type is not
under src/; fields are taken from its construction in
`UpdateEvaluationJob` (id, provider id, metrics, artifacts, external
run reference, log location). -/
structure BenchmarkResult where
  id : String
  providerID : String
  metrics : List (String × String) := []
  artifacts : List (String × String) := []
  mlflowRunID : String := ""
  logsPath : String := ""
deriving DecidableEq, Repr

/-- `EvaluationJobStatus`. Modelled from the spec: the current version
of this pkg/api type is not under src/; it embeds `EvaluationJobState`
(overall state + optional message pointer) and carries the
per-benchmark status list. -/
structure EvaluationJobStatus where
  state : OverallState := ""
  message : Option MessageInfo := none
  benchmarks : List BenchmarkStatus := []
deriving DecidableEq, Repr

/-- `EvaluationJobResults`. Modelled from the spec: the current version
of this pkg/api type is not under src/; the stores only touch its
per-benchmark result list. -/
structure EvaluationJobResults where
  benchmarks : List BenchmarkResult := []
deriving DecidableEq, Repr

/-- `EvaluationResource` (pkg/api/evaluations.go): embeds `Resource`
(id, tenant, timestamps) plus the experiment reference, status and
optional message. -/
structure EvaluationResource where
  id : String
  tenant : String := ""
  createdAt : Nat := 0
  updatedAt : Nat := 0
  mlflowExperimentID : String := ""
  status : OverallState := ""
  message : Option MessageInfo := none
deriving DecidableEq, Repr

/-- `EvaluationJobResource` (pkg/api/evaluations.go): resource metadata,
embedded config, status pointer and optional results. -/
structure EvaluationJobResource where
  resource : EvaluationResource
  config : EvaluationJobConfig
  status : Option EvaluationJobStatus := none
  results : Option EvaluationJobResults := none
deriving DecidableEq, Repr

/-- `StatusEvent` (pkg/api/evaluations.go): wraps the (required)
benchmark status event. -/
structure StatusEvent where
  benchmarkStatusEvent : BenchmarkStatus
deriving DecidableEq, Repr

/-! ## Status aggregator (internal/storage/common, src/unnamed/part_009) -/

/-- The benchmark-status list of a job. In Go `job.Status.Benchmarks`
dereferences the status pointer; every caller of the aggregator
establishes a non-nil status, an absent status is read as the empty
list here for totality. -/
def statusBenchmarks (job : EvaluationJobResource) : List BenchmarkStatus :=
  match job.status with
  | some st => st.benchmarks
  | none => []

/-- The recorded status of the benchmark with the given composite key
on a job, if any. -/
def benchmarkStatusFor (job : EvaluationJobResource) (benchID providerID : String) :
    Option State :=
  ((statusBenchmarks job).find? (fun b => b.id == benchID && b.providerID == providerID)).map
    (fun b => b.status)

/-- The loop body of `GetOverallJobStatus`'s failure-message
accumulation: append one line per benchmark in state failed that
carries an error message. -/
def failureStep (acc : String) (b : BenchmarkStatus) : String :=
  if b.status == StateFailed then
    match b.errorMessage with
    | some m => acc ++ "Benchmark " ++ b.id ++ " failed with message: " ++ m.message ++ "\n"
    | none => acc
  else acc

/-- The failure-message accumulator of `GetOverallJobStatus`: one line
per benchmark in state failed that carries an error message, in list
order. -/
def failureMessageOf (bs : List BenchmarkStatus) : String :=
  bs.foldl failureStep ""

/-- The individual failure lines of the failure-message accumulator:
one entry per benchmark in state failed carrying an error message. -/
def failureLines (bs : List BenchmarkStatus) : List String :=
  bs.filterMap (fun b =>
    if b.status == StateFailed then
      b.errorMessage.map (fun m =>
        "Benchmark " ++ b.id ++ " failed with message: " ++ m.message ++ "\n")
    else none)

/-- Concatenation of a list of lines. -/
def concatLines (ls : List String) : String :=
  ls.foldr (· ++ ·) ""

/-- `GetOverallJobStatus` (storage/common): groups the job's benchmark
statuses by state (the Go counting map is embedded as `countP` per
state), accumulates the failure message, and resolves the overall state
by the priority cascade of the source's `switch`. -/
def GetOverallJobStatus (job : EvaluationJobResource) : OverallState × MessageInfo :=
  let bs := statusBenchmarks job
  let failureMessage := failureMessageOf bs
  let total := job.config.benchmarks.length
  let completed := bs.countP (fun b => b.status == StateCompleted)
  let failed := bs.countP (fun b => b.status == StateFailed)
  let running := bs.countP (fun b => b.status == StateRunning)
  let overall : OverallState × String :=
    if completed == total then
      (OverallStateCompleted, "Evaluation job is completed")
    else if failed == total then
      (OverallStateFailed, "Evaluation job is failed. \n" ++ failureMessage)
    else if completed + failed == total then
      (OverallStatePartiallyFailed, "Some of the benchmarks failed. \n" ++ failureMessage)
    else if running > 0 then
      (OverallStateRunning, "Evaluation job is running")
    else
      (OverallStatePending, "Evaluation job is pending")
  (overall.1, { message := overall.2, messageCode := MESSAGE_CODE_EVALUATION_JOB_UPDATED })

/-- `ServiceError` (internal/serviceerrors) specialised to the message
codes the job store raises; each constructor carries the templated
message parameters. -/
inductive ServiceError where
  | resourceNotFound (params : List String)
  | internalServerError (params : List String)
  | databaseOperationFailed (params : List String)
  | jsonUnmarshalFailed (params : List String)
  | queryFailed (params : List String)
  | jobCanNotBeCancelled (params : List String)
deriving DecidableEq, Repr

/-- `ValidateBenchmarkExists` (storage/common): fails with a not-found
error if the event's composite key is absent from the configured
benchmark list. -/
def ValidateBenchmarkExists (job : EvaluationJobResource) (runStatus : StatusEvent) :
    Except ServiceError Unit :=
  let ev := runStatus.benchmarkStatusEvent
  if job.config.benchmarks.any (fun b => b.id == ev.id && b.providerID == ev.providerID) then
    .ok ()
  else
    .error (.resourceNotFound ["benchmark", ev.id, "Invalid Benchmark for the evaluation job"])

/-- `UpdateBenchmarkResults` (storage/common): appends the result,
failing with an internal error if the composite key already has a
recorded result (write-once invariant). -/
def UpdateBenchmarkResults (job : EvaluationJobResource) (runStatus : StatusEvent)
    (result : BenchmarkResult) : Except ServiceError EvaluationJobResource :=
  let ev := runStatus.benchmarkStatusEvent
  let results := job.results.getD {}
  if results.benchmarks.any (fun b => b.id == ev.id && b.providerID == ev.providerID) then
    .error (.internalServerError
      ["Benchmark result already exists for benchmark " ++ ev.id ++ " in job " ++ job.resource.id])
  else
    .ok { job with results := some { results with benchmarks := results.benchmarks ++ [result] } }

/-- Replace the first status entry matching the event's composite key;
`none` when no entry matches. -/
def replaceFirstStatus (evID evProviderID : String) (new : BenchmarkStatus) :
    List BenchmarkStatus → Option (List BenchmarkStatus)
  | [] => none
  | b :: rest =>
    if b.id == evID && b.providerID == evProviderID then
      some (new :: rest)
    else
      (replaceFirstStatus evID evProviderID new rest).map (b :: ·)

/-- `UpdateBenchmarkStatus` (storage/common): upsert by composite key
into the status benchmark list — replace the first matching entry, else
append; initializes an absent status with state pending as the source
does. -/
def UpdateBenchmarkStatus (job : EvaluationJobResource) (runStatus : StatusEvent)
    (benchmarkStatus : BenchmarkStatus) : EvaluationJobResource :=
  let ev := runStatus.benchmarkStatusEvent
  let status := job.status.getD { state := OverallStatePending }
  let newBenchmarks :=
    match replaceFirstStatus ev.id ev.providerID benchmarkStatus status.benchmarks with
    | some bs => bs
    | none => status.benchmarks ++ [benchmarkStatus]
  { job with status := some { status with benchmarks := newBenchmarks } }

/-! ## SQL job store (internal/storage/sql, src/unnamed/part_011)

The row layout follows the persisted schema: id, tenant id, queryable
status column, experiment reference, opaque entity blob, timestamps.
The entity blob is embedded as either a structurally faithful entity
value (JSON marshalling of a well-typed entity never fails) or a
malformed payload, which models a row whose JSON fails to
unmarshal. -/

/-- `EvaluationJobEntity` (storage/sql): the opaque blob's shape —
config, status, results; config is required on read. -/
structure EvaluationJobEntity where
  config : Option EvaluationJobConfig
  status : Option EvaluationJobStatus
  results : Option EvaluationJobResults
deriving DecidableEq, Repr

/-- The persisted entity column: a well-formed serialized entity or a
payload that fails JSON unmarshalling. -/
inductive Blob where
  | malformed (raw : String)
  | entity (e : EvaluationJobEntity)
deriving DecidableEq, Repr

/-- `json.Unmarshal` of the entity column. -/
def jsonUnmarshalEntity : Blob → Except String EvaluationJobEntity
  | .malformed raw => .error ("invalid entity JSON: " ++ raw)
  | .entity e => .ok e

/-- One row of the evaluations table: (id, tenant_id, status,
experiment_id, entity, created_at, updated_at). -/
structure DBRow where
  id : String
  tenant : String
  createdAt : Nat
  updatedAt : Nat
  status : String
  experimentID : String
  blob : Blob
deriving DecidableEq, Repr

/-- The evaluations table, in insertion order. -/
abbrev DB := List DBRow

/-- Row lookup by primary key (the SELECT ... WHERE id = ? queries). -/
def findRow : DB → String → Option DBRow
  | [], _ => none
  | row :: rest, id => if row.id == id then some row else findRow rest id

/-- `getTenant`. Modelled from the spec: tenant resolution is a
hard-coded placeholder in the source. -/
def getTenant : String := "TODO"

/-- `withTransaction`. Modelled from the spec: the transaction wrapper
is not under src/; per the spec every multi-step mutation runs in one
transaction and any step failing rolls back the whole transaction. The
body threads the table state and reports an error or success; on error
the rolled-back (original) state is kept, on success the body's final
state is committed. -/
def withTransaction (db : DB) (body : DB → Except ServiceError Unit × DB) :
    Except ServiceError DB :=
  match body db with
  | (.ok _, db1) => .ok db1
  | (.error e, _) => .error e

/-- The table state a caller observes after an operation: the new state
on success, the untouched state after a rollback. -/
def persistedAfter (db : DB) (r : Except ServiceError DB) : DB :=
  match r with
  | .ok db1 => db1
  | .error _ => db

/-- `constructEvaluationResource` (storage/sql): rebuilds the resource
from the blob's entity; fails on a missing entity or config; overlays
the blob's embedded state with the queryable status column whenever the
column is non-empty and parses as a valid overall state. -/
def constructEvaluationResource (statusStr : String) (message : Option MessageInfo)
    (dbID : String) (createdAt updatedAt : Nat) (experimentID : String)
    (evaluationEntity : Option EvaluationJobEntity) :
    Except ServiceError EvaluationJobResource :=
  match evaluationEntity with
  | none => .error (.internalServerError ["Evaluation entity does not exist"])
  | some entity =>
    match entity.config with
    | none => .error (.internalServerError ["Evaluation config does not exist"])
    | some config =>
      let status0 := entity.status.getD {}
      let message := match message with
        | none => status0.message
        | some m => some m
      let overAllState :=
        if statusStr != "" then
          match GetOverallState statusStr with
          | .ok s => s
          | .error _ => status0.state
        else status0.state
      let status := { status0 with state := overAllState }
      .ok {
        resource := {
          id := dbID
          tenant := "TODO"
          createdAt := createdAt
          updatedAt := updatedAt
          mlflowExperimentID := experimentID
          message := message
        }
        config := config
        status := some status
        results := entity.results
      }

/-- `getEvaluationJobTransactional` (storage/sql): SELECT by id —
not-found on a missing row, unmarshal the blob, construct the
resource. -/
def getEvaluationJobTransactional (db : DB) (id : String) :
    Except ServiceError EvaluationJobResource :=
  match findRow db id with
  | none => .error (.resourceNotFound ["evaluation job", id])
  | some row =>
    match jsonUnmarshalEntity row.blob with
    | .error e => .error (.jsonUnmarshalFailed ["evaluation job", e])
    | .ok entity =>
      constructEvaluationResource row.status none row.id row.createdAt row.updatedAt
        row.experimentID (some entity)

/-- `GetEvaluationJob` (storage/sql). -/
def GetEvaluationJob (db : DB) (id : String) : Except ServiceError EvaluationJobResource :=
  getEvaluationJobTransactional db id

/-- The row `CreateEvaluationJob` inserts:
(id, tenant, status=pending, experiment_id, entity blob) with the
entity blob serializing config/status/results. -/
def createdRow (evaluation : EvaluationJobResource) : DBRow :=
  { id := evaluation.resource.id
    tenant := getTenant
    createdAt := 0
    updatedAt := 0
    status := StatePending
    experimentID := evaluation.resource.mlflowExperimentID
    blob := .entity {
      config := some evaluation.config
      status := evaluation.status
      results := evaluation.results } }

/-- `CreateEvaluationJob` (storage/sql): inserts
(id, tenant, status=pending, experiment_id, entity blob) in one
transaction; the schema's timestamp defaults are abstracted as zero —
no claim touches them. -/
def CreateEvaluationJob (db : DB) (evaluation : EvaluationJobResource) :
    Except ServiceError DB :=
  withTransaction db (fun db0 => (.ok (), db0 ++ [createdRow evaluation]))

/-- `updateEvaluationJobTxn` (storage/sql): marshals the entity and
executes the UPDATE setting the status column and the entity blob of
the row with the given id. -/
def updateEvaluationJobTxn (db : DB) (id : String) (status : OverallState)
    (evaluationJob : EvaluationJobEntity) : Except ServiceError Unit × DB :=
  (.ok (), db.map (fun row =>
    if row.id == id then { row with status := status, blob := .entity evaluationJob }
    else row))

/-- `updateEvaluationJobStatusTxn` (storage/sql): re-reads the job,
overwrites its overall state and message, and persists the rebuilt
entity. -/
def updateEvaluationJobStatusTxn (db : DB) (id : String) (overallState : OverallState)
    (message : Option MessageInfo) : Except ServiceError Unit × DB :=
  match getEvaluationJobTransactional db id with
  | .error e => (.error e, db)
  | .ok evaluationJob =>
    let status := evaluationJob.status.getD {}
    let status := { status with state := overallState, message := message }
    let entity : EvaluationJobEntity := {
      config := some evaluationJob.config
      status := some status
      results := evaluationJob.results
    }
    updateEvaluationJobTxn db id overallState entity

/-- The overall state of a loaded job; Go dereferences the status
pointer, which `constructEvaluationResource` guarantees non-nil. -/
def jobState (job : EvaluationJobResource) : OverallState :=
  (job.status.getD {}).state

/-- `UpdateEvaluationJobStatus` (storage/sql): loads the job inside a
transaction; already-cancelled is a successful no-op; completed or
failed fails with the cannot-be-cancelled error; otherwise persists the
requested state and message. -/
def UpdateEvaluationJobStatus (db : DB) (id : String) (state : OverallState)
    (message : Option MessageInfo) : Except ServiceError DB :=
  withTransaction db (fun db0 =>
    match getEvaluationJobTransactional db0 id with
    | .error e => (.error e, db0)
    | .ok evaluationJob =>
      if jobState evaluationJob == OverallStateCancelled then
        (.ok (), db0)
      else if jobState evaluationJob == OverallStateCompleted
          || jobState evaluationJob == OverallStateFailed then
        (.error (.jobCanNotBeCancelled [id, jobState evaluationJob]), db0)
      else
        updateEvaluationJobStatusTxn db0 id state message)

/-- The body of `UpdateEvaluationJob`'s transaction (storage/sql): load
job → `ValidateBenchmarkExists` → `UpdateBenchmarkStatus` → on a
terminal event state also `UpdateBenchmarkResults` →
`GetOverallJobStatus` → persist. -/
def UpdateEvaluationJobBody (db : DB) (id : String) (runStatus : StatusEvent) :
    Except ServiceError Unit × DB :=
  match getEvaluationJobTransactional db id with
  | .error e => (.error e, db)
  | .ok job =>
    match ValidateBenchmarkExists job runStatus with
    | .error e => (.error e, db)
    | .ok _ =>
      let ev := runStatus.benchmarkStatusEvent
      let benchmark : BenchmarkStatus := {
        providerID := ev.providerID
        id := ev.id
        status := ev.status
        errorMessage := ev.errorMessage
        startedAt := ev.startedAt
        completedAt := ev.completedAt
      }
      let job := UpdateBenchmarkStatus job runStatus benchmark
      let afterResults :=
        if ev.status == StateCompleted || ev.status == StateFailed
            || ev.status == StateCancelled then
          let result : BenchmarkResult := {
            id := ev.id
            providerID := ev.providerID
            metrics := ev.metrics
            artifacts := ev.artifacts
            mlflowRunID := ev.mlflowRunID
            logsPath := ev.logsPath
          }
          UpdateBenchmarkResults job runStatus result
        else .ok job
      match afterResults with
      | .error e => (.error e, db)
      | .ok job =>
        let overall := GetOverallJobStatus job
        let status := job.status.getD {}
        let status := { status with state := overall.1, message := some overall.2 }
        let entity : EvaluationJobEntity := {
          config := some job.config
          status := some status
          results := job.results
        }
        updateEvaluationJobTxn db id overall.1 entity

/-- `UpdateEvaluationJob` (storage/sql): the status-event callback path,
entirely inside one transaction. -/
def UpdateEvaluationJob (db : DB) (id : String) (runStatus : StatusEvent) :
    Except ServiceError DB :=
  withTransaction db (fun db0 => UpdateEvaluationJobBody db0 id runStatus)

/-- `abstractions.QueryResults` (not under src/; fields from its
construction in `GetEvaluationJobs`): the still-valid items, the
(possibly decremented) total count, and the per-row construction
failures. -/
structure QueryResults where
  items : List EvaluationJobResource
  totalStored : Int
  errors : List ServiceError
deriving DecidableEq, Repr

/-- The row-processing loop of `GetEvaluationJobs`: a blob that fails
to unmarshal aborts the whole call; a row whose resource construction
fails is skipped, its error collected and one decrement recorded. -/
def listRowsLoop : List DBRow →
    Except ServiceError (List EvaluationJobResource × List ServiceError × Nat)
  | [] => .ok ([], [], 0)
  | row :: rest =>
    match jsonUnmarshalEntity row.blob with
    | .error e => .error (.jsonUnmarshalFailed ["evaluation job", e])
    | .ok entity =>
      match constructEvaluationResource row.status none row.id row.createdAt row.updatedAt
          row.experimentID (some entity) with
      | .error e =>
        (listRowsLoop rest).map (fun r => (r.1, e :: r.2.1, r.2.2 + 1))
      | .ok resource =>
        (listRowsLoop rest).map (fun r => (resource :: r.1, r.2.1, r.2.2))

/-- Whether a row matches the optional status filter (the WHERE clause
the statement layer emits for a non-empty filter). -/
def matchesFilter (statusFilter : String) (row : DBRow) : Bool :=
  statusFilter == "" || row.status == statusFilter

/-- `GetEvaluationJobs` (storage/sql): count query and paginated list
query under the same filter, then the row-processing loop; the returned
total count is the count-query result minus one per row excluded by a
construction failure. -/
def GetEvaluationJobs (db : DB) (limit offset : Nat) (statusFilter : String) :
    Except ServiceError QueryResults :=
  let matching := db.filter (matchesFilter statusFilter)
  let totalCount : Int := matching.length
  let page := (matching.drop offset).take limit
  match listRowsLoop page with
  | .error e => .error e
  | .ok (items, constructErrs, decrements) =>
    .ok { items := items, totalStored := totalCount - decrements, errors := constructErrs }

/-- What one list row yields: `none` when the blob fails to unmarshal
or the resource construction fails, the constructed resource
otherwise. -/
def listRowResource (row : DBRow) : Option EvaluationJobResource :=
  match jsonUnmarshalEntity row.blob with
  | .error _ => none
  | .ok e =>
    (constructEvaluationResource row.status none row.id row.createdAt row.updatedAt
      row.experimentID (some e)).toOption

/-! ## Kubernetes dispatcher (internal/runtimes/k8s) -/

/-- The runtime section of a provider (adapter image, resource strings,
default environment). The current pkg/api revision carrying it is not
under src/; fields are those `buildJobConfig` reads. -/
structure ProviderRuntime where
  cpuRequest : String := ""
  memoryRequest : String := ""
  cpuLimit : String := ""
  memoryLimit : String := ""
  adapterImage : String := ""
  defaultEnv : List (String × String) := []
deriving DecidableEq, Repr

/-- One benchmark of a provider's catalogue
(pkg/api/providers.go `BenchmarkResource`, restricted to the id the
dispatcher reads). -/
structure ProviderBenchmark where
  benchmarkId : String
deriving DecidableEq, Repr

/-- `ProviderResource` (pkg/api/providers.go) restricted to the fields
the dispatcher reads. -/
structure ProviderResource where
  providerID : String
  benchmarks : List ProviderBenchmark := []
  runtime : Option ProviderRuntime := none
deriving DecidableEq, Repr

/-- `resolveProviderFromEvaluation` (k8s_runtime.go): requires loaded
providers and exactly one benchmark on the job, then scans providers
for one whose catalogue contains the benchmark id. The Go source
iterates a map in unspecified order; the embedding fixes the provider
list's order. -/
def resolveProviderFromEvaluation (providers : List ProviderResource)
    (evaluation : EvaluationJobResource) : Except String (ProviderResource × String) :=
  if providers.isEmpty then .error "no provider configs loaded"
  else if evaluation.config.benchmarks.isEmpty then .error "evaluation contains no benchmarks"
  else if evaluation.config.benchmarks.length > 1 then
    .error "multi-benchmark evaluations are not supported"
  else
    let benchmarkID := ((evaluation.config.benchmarks.head?.map (·.id)).getD "")
    if benchmarkID == "" then .error "evaluation benchmark id is empty"
    else
      match providers.find? (fun p => p.benchmarks.any (fun b => b.benchmarkId == benchmarkID)) with
      | some provider => .ok (provider, benchmarkID)
      | none => .error ("no provider found for benchmark " ++ benchmarkID)

def defaultCPURequest : String := "250m"
def defaultMemoryRequest : String := "512Mi"
def defaultCPULimit : String := "1"
def defaultMemoryLimit : String := "2Gi"
def defaultNamespaceK8s : String := "default"

/-- `defaultIfEmpty` (k8s_runtime.go). -/
def defaultIfEmpty (value fallback : String) : String :=
  if value == "" then fallback else value

/-- `resolveNamespace` (k8s_runtime.go); the in-cluster service-account
namespace file's content is passed in as a parameter. -/
def resolveNamespace (configured inClusterNamespace : String) : String :=
  if configured != "" then configured
  else if inClusterNamespace != "" then inClusterNamespace
  else defaultNamespaceK8s

/-- The JSON serialization of the job spec mounted into the execution
unit, abstracted as the value's canonical printed form (no claim
depends on the encoding). -/
def marshalJobSpec (evaluation : EvaluationJobResource) : String :=
  reprStr evaluation

/-- `jobConfig` (k8s_runtime.go). -/
structure JobConfig where
  jobID : String
  ns : String
  providerID : String
  benchmarkID : String
  retryAttempts : Int
  adapterImage : String
  evalHubServiceURL : String
  defaultEnv : List (String × String)
  cpuRequest : String
  memoryRequest : String
  cpuLimit : String
  memoryLimit : String
  jobSpecJSON : String
deriving DecidableEq, Repr

/-- `buildJobConfig` (k8s_runtime.go): validates the provider runtime,
defaults the resource strings, requires the adapter image and the
service URL (the `EVALHUB_SERVICE_URL` environment value is passed in
as a parameter), validates the retry count and resolves the
namespace. -/
def buildJobConfig (evaluation : EvaluationJobResource) (provider : ProviderResource)
    (benchmarkID : String) (evalHubServiceURL inClusterNamespace : String) :
    Except String JobConfig :=
  match provider.runtime with
  | none => .error ("provider " ++ provider.providerID ++ " missing runtime configuration")
  | some runtime =>
    let cpuRequest := defaultIfEmpty runtime.cpuRequest defaultCPURequest
    let memoryRequest := defaultIfEmpty runtime.memoryRequest defaultMemoryRequest
    let cpuLimit := defaultIfEmpty runtime.cpuLimit defaultCPULimit
    let memoryLimit := defaultIfEmpty runtime.memoryLimit defaultMemoryLimit
    if runtime.adapterImage == "" then .error "runtime adapter image is required"
    else if evalHubServiceURL == "" then .error "EVALHUB_SERVICE_URL is required"
    else
      match
        (match evaluation.config.retryAttempts with
         | some r => if r < 0 then Except.error "retry attempts cannot be negative" else .ok r
         | none => .ok 0) with
      | .error e => .error e
      | .ok retryAttempts =>
        .ok {
          jobID := evaluation.resource.id
          ns := resolveNamespace "" inClusterNamespace
          providerID := provider.providerID
          benchmarkID := benchmarkID
          retryAttempts := retryAttempts
          adapterImage := runtime.adapterImage
          evalHubServiceURL := evalHubServiceURL
          defaultEnv := runtime.defaultEnv
          cpuRequest := cpuRequest
          memoryRequest := memoryRequest
          cpuLimit := cpuLimit
          memoryLimit := memoryLimit
          jobSpecJSON := marshalJobSpec evaluation
        }

/-- The fixed key the job spec JSON is stored under in the config map.
Modelled from the spec: the builders file is not under src/. -/
def jobSpecFileName : String := "job-spec.json"

/-- `configMapName`. Modelled from the spec: the builders file is not
under src/; the name is a deterministic function of job id, provider id
and benchmark id (the sanitization pipeline is not embedded — no claim
depends on it). -/
def configMapName (jobID providerID benchmarkID : String) : String :=
  jobID ++ "-" ++ providerID ++ "-" ++ benchmarkID ++ "-config"

/-- The job-equivalent resource's name. Modelled from the spec: a
deterministic function of the same three ids. -/
def jobResourceName (jobID providerID benchmarkID : String) : String :=
  jobID ++ "-" ++ providerID ++ "-" ++ benchmarkID

/-- The config-map-equivalent resource, restricted to what `Run`
consumes. -/
structure ConfigMapRes where
  ns : String
  name : String
  data : List (String × String)
deriving DecidableEq, Repr

/-- The job-equivalent resource, restricted to what `Run` consumes. -/
structure JobRes where
  ns : String
  name : String
deriving DecidableEq, Repr

/-- `buildConfigMap`. Modelled from the spec: labelled config-map-
equivalent resource holding the job spec JSON under the fixed key. -/
def buildConfigMap (cfg : JobConfig) : ConfigMapRes :=
  { ns := cfg.ns
    name := configMapName cfg.jobID cfg.providerID cfg.benchmarkID
    data := [(jobSpecFileName, cfg.jobSpecJSON)] }

/-- `buildJob`. Modelled from the spec: pure construction of the
job-equivalent resource (the pod-template details are not embedded —
no claim depends on them). -/
def buildJob (cfg : JobConfig) : JobRes :=
  { ns := cfg.ns
    name := jobResourceName cfg.jobID cfg.providerID cfg.benchmarkID }

/-- An error returned by the cluster API, distinguishing the not-found
class (`apierrors.IsNotFound`). -/
inductive K8sError where
  | notFound
  | other (msg : String)
deriving DecidableEq, Repr

def isNotFoundErr : K8sError → Bool
  | .notFound => true
  | .other _ => false

/-- The outcomes the cluster API yields for the (at most) three calls
`Run` makes; `none` is success. -/
structure ClusterOutcomes where
  createConfigMapErr : Option K8sError := none
  createJobErr : Option K8sError := none
  deleteConfigMapErr : Option K8sError := none
deriving DecidableEq, Repr

/-- One call `Run` issues against the cluster API, in order. -/
inductive K8sAction where
  | createConfigMap (ns name : String)
  | createJob (ns name : String)
  | deleteConfigMap (ns name : String)
deriving DecidableEq, Repr

/-- The error `Run` returns. -/
inductive RunError where
  | configError (msg : String)
  | clusterError (e : K8sError)
deriving DecidableEq, Repr

/-- What a `Run` call produced: its returned result, the ordered trace
of cluster API calls, and the cleanup-failure log lines. -/
structure RunOutput where
  result : Except RunError Unit
  actions : List K8sAction
  cleanupLogs : List String
deriving Repr

/-- `RunEvaluationJob` (k8s_runtime.go): resolve provider and
benchmark, build the job config and the two resources, submit the
config map then the job; on job-submission failure best-effort delete
the config map — a cleanup failure other than not-found is logged, and
the original job-creation error is returned either way. -/
def RunEvaluationJob (outcomes : ClusterOutcomes) (providers : List ProviderResource)
    (evaluation : EvaluationJobResource) (evalHubServiceURL inClusterNamespace : String) :
    RunOutput :=
  match resolveProviderFromEvaluation providers evaluation with
  | .error e => { result := .error (.configError e), actions := [], cleanupLogs := [] }
  | .ok (provider, benchmarkID) =>
    match buildJobConfig evaluation provider benchmarkID evalHubServiceURL inClusterNamespace with
    | .error e => { result := .error (.configError e), actions := [], cleanupLogs := [] }
    | .ok cfg =>
      let configMap := buildConfigMap cfg
      let job := buildJob cfg
      match outcomes.createConfigMapErr with
      | some e =>
        { result := .error (.clusterError e)
          actions := [.createConfigMap configMap.ns configMap.name]
          cleanupLogs := [] }
      | none =>
        match outcomes.createJobErr with
        | none =>
          { result := .ok ()
            actions := [.createConfigMap configMap.ns configMap.name,
                        .createJob job.ns job.name]
            cleanupLogs := [] }
        | some e =>
          let cleanupLogs :=
            match outcomes.deleteConfigMapErr with
            | some cleanupErr =>
              if isNotFoundErr cleanupErr then []
              else ["failed to delete configmap after job creation error"]
            | none => []
          { result := .error (.clusterError e)
            actions := [.createConfigMap configMap.ns configMap.name,
                        .createJob job.ns job.name,
                        .deleteConfigMap configMap.ns configMap.name]
            cleanupLogs := cleanupLogs }

/-! ## Concrete fixtures for witnesses -/

/-- A one-benchmark job configuration. -/
def exCfg : EvaluationJobConfig :=
  { model := { url := "u", name := "n" }, benchmarks := [{ id := "b1", providerID := "p1" }] }

/-- A one-row store holding that job in state pending. -/
def exDB0 : DB :=
  [{ id := "j", tenant := "t", createdAt := 0, updatedAt := 0,
     status := "pending", experimentID := "",
     blob := .entity { config := some exCfg,
                       status := some { state := OverallStatePending },
                       results := none } }]

/-- A first, completed status event for the job's single benchmark. -/
def exEv1 : StatusEvent :=
  { benchmarkStatusEvent := { providerID := "p1", id := "b1", status := StateCompleted } }

/-- A second, failed status event for the same composite key. -/
def exEv2 : StatusEvent :=
  { benchmarkStatusEvent := {
      providerID := "p1"
      id := "b1"
      status := StateFailed
      errorMessage := some { message := "x", messageCode := "c" } } }

/-- A well-formed stored row for a pending job. -/
def exRow1 : DBRow :=
  { id := "j1", tenant := "t", createdAt := 0, updatedAt := 0,
    status := "pending", experimentID := "",
    blob := .entity { config := some exCfg,
                      status := some { state := OverallStatePending },
                      results := none } }

/-- A stored row whose entity unmarshals but has no config. -/
def exRowNoConfig : DBRow :=
  { id := "j2", tenant := "t", createdAt := 0, updatedAt := 0,
    status := "pending", experimentID := "",
    blob := .entity { config := none, status := none, results := none } }

/-- A stored row whose entity blob fails JSON unmarshalling. -/
def exRowMalformed : DBRow :=
  { id := "j3", tenant := "t", createdAt := 0, updatedAt := 0,
    status := "pending", experimentID := "",
    blob := .malformed "oops" }

/-- A provider whose catalogue contains the fixture benchmark. -/
def exProvider : ProviderResource :=
  { providerID := "prov", benchmarks := [{ benchmarkId := "b1" }],
    runtime := some { adapterImage := "img" } }

/-- The fixture evaluation job resource. -/
def exEval : EvaluationJobResource :=
  { resource := { id := "j" }, config := exCfg }

/-! ## Helper lemmas -/

/-- The Go counting map read at one state equals the length of the
status list filtered to that state. -/
lemma countP_status_filter (bs : List BenchmarkStatus) (s : State) :
    bs.countP (fun b => b.status == s) = (bs.filter (fun b => b.status = s)).length := by
  rw [List.countP_eq_length_filter]
  congr 1

/-! ## Claims about the status aggregator -/

/-- C1: for every job with `total` configured benchmarks, the
status-aggregation function returns the overall state of the priority
cascade: all-completed dominates, then all-failed, then mixed terminal
outcomes, then any running benchmark, then pending; the all-completed
case carries the message "Evaluation job is completed". -/
theorem getOverallJobStatus_priority_cascade (job : EvaluationJobResource)
    (total completed failed running : Nat)
    (htotal : total = job.config.benchmarks.length)
    (hcompleted : completed =
      ((statusBenchmarks job).filter (fun b => b.status = StateCompleted)).length)
    (hfailed : failed =
      ((statusBenchmarks job).filter (fun b => b.status = StateFailed)).length)
    (hrunning : running =
      ((statusBenchmarks job).filter (fun b => b.status = StateRunning)).length) :
    (completed = total →
      GetOverallJobStatus job =
        (OverallStateCompleted,
          { message := "Evaluation job is completed",
            messageCode := MESSAGE_CODE_EVALUATION_JOB_UPDATED })) ∧
    (completed ≠ total → failed = total →
      (GetOverallJobStatus job).1 = OverallStateFailed) ∧
    (completed ≠ total → failed ≠ total → completed + failed = total →
      (GetOverallJobStatus job).1 = OverallStatePartiallyFailed) ∧
    (completed ≠ total → failed ≠ total → completed + failed ≠ total → 0 < running →
      (GetOverallJobStatus job).1 = OverallStateRunning) ∧
    (completed ≠ total → failed ≠ total → completed + failed ≠ total → running = 0 →
      (GetOverallJobStatus job).1 = OverallStatePending) := by
  rw [← countP_status_filter] at hcompleted hfailed hrunning
  subst htotal hcompleted hfailed hrunning
  refine ⟨?_, ?_, ?_, ?_, ?_⟩
  · intro h1
    simp only [GetOverallJobStatus]
    rw [if_pos (by simpa using h1)]
  · intro h1 h2
    simp only [GetOverallJobStatus]
    rw [if_neg (by simpa using h1), if_pos (by simpa using h2)]
  · intro h1 h2 h3
    simp only [GetOverallJobStatus]
    rw [if_neg (by simpa using h1), if_neg (by simpa using h2), if_pos (by simpa using h3)]
  · intro h1 h2 h3 h4
    simp only [GetOverallJobStatus]
    rw [if_neg (by simpa using h1), if_neg (by simpa using h2), if_neg (by simpa using h3),
      if_pos h4]
  · intro h1 h2 h3 h4
    simp only [GetOverallJobStatus]
    rw [if_neg (by simpa using h1), if_neg (by simpa using h2), if_neg (by simpa using h3),
      if_neg (by omega)]

/-- Witness for C1: a one-benchmark job whose single benchmark is
completed aggregates to overall completed with the completion
message. -/
theorem getOverallJobStatus_priority_cascade_witness :
    GetOverallJobStatus
      { resource := { id := "job-1" }
        config := { model := { url := "http://m", name := "m" },
                    benchmarks := [{ id := "arc_easy", providerID := "p1" }] }
        status := some { state := OverallStateRunning, benchmarks :=
          [{ providerID := "p1", id := "arc_easy", status := StateCompleted }] } } =
      (OverallStateCompleted,
        { message := "Evaluation job is completed",
          messageCode := MESSAGE_CODE_EVALUATION_JOB_UPDATED }) :=
  (getOverallJobStatus_priority_cascade
    { resource := { id := "job-1" }
      config := { model := { url := "http://m", name := "m" },
                  benchmarks := [{ id := "arc_easy", providerID := "p1" }] }
      status := some { state := OverallStateRunning, benchmarks :=
        [{ providerID := "p1", id := "arc_easy", status := StateCompleted }] } }
    1 1 0 0 rfl (by decide) (by decide) (by decide)).1 rfl

/-- The failure-message accumulator is the concatenation of the
individual failure lines. -/
lemma foldl_failureStep (l : List BenchmarkStatus) (acc : String) :
    l.foldl failureStep acc = acc ++ concatLines (failureLines l) := by
  induction l generalizing acc with
  | nil => simp [failureLines, concatLines]
  | cons b rest ih =>
    rw [List.foldl_cons, ih]
    rcases hb : (b.status == StateFailed) with _ | _
    · have hb2 : ¬ (b.status = StateFailed) := by simpa using hb
      have hstep : failureStep acc b = acc := by simp [failureStep, hb]
      have hl : failureLines (b :: rest) = failureLines rest := by
        simp [failureLines, List.filterMap_cons, hb2]
      rw [hstep, hl]
    · have hb2 : b.status = StateFailed := by simpa using hb
      rcases hm : b.errorMessage with _ | m
      · have hstep : failureStep acc b = acc := by simp [failureStep, hb, hm]
        have hl : failureLines (b :: rest) = failureLines rest := by
          simp [failureLines, List.filterMap_cons, hb2, hm]
        rw [hstep, hl]
      · have hstep : failureStep acc b =
            acc ++ "Benchmark " ++ b.id ++ " failed with message: " ++ m.message ++ "\n" := by
          simp [failureStep, hb, hm]
        have hl : failureLines (b :: rest) =
            ("Benchmark " ++ b.id ++ " failed with message: " ++ m.message ++ "\n")
              :: failureLines rest := by
          simp [failureLines, List.filterMap_cons, hb2, hm]
        rw [hstep, hl]
        show acc ++ "Benchmark " ++ b.id ++ " failed with message: " ++ m.message ++ "\n"
            ++ concatLines (failureLines rest) =
          acc ++ (("Benchmark " ++ b.id ++ " failed with message: " ++ m.message ++ "\n")
            ++ concatLines (failureLines rest))
        simp [String.append_assoc]

/-- The failure-message accumulator is the concatenation of the
individual failure lines. -/
lemma failureMessageOf_eq_concat (bs : List BenchmarkStatus) :
    failureMessageOf bs = concatLines (failureLines bs) := by
  rw [failureMessageOf, foldl_failureStep]
  simp

/-- C8: aggregation is order-independent — for jobs with the same
configured benchmark count, permuting the benchmark-status list leaves
the overall state unchanged and permutes the failure lines, whose
concatenation is exactly the failure-message content. -/
theorem getOverallJobStatus_order_independent (job job' : EvaluationJobResource)
    (hconfig : job'.config = job.config)
    (hperm : (statusBenchmarks job').Perm (statusBenchmarks job)) :
    (GetOverallJobStatus job').1 = (GetOverallJobStatus job).1 ∧
    (failureLines (statusBenchmarks job')).Perm (failureLines (statusBenchmarks job)) ∧
    failureMessageOf (statusBenchmarks job') = concatLines (failureLines (statusBenchmarks job')) ∧
    failureMessageOf (statusBenchmarks job) = concatLines (failureLines (statusBenchmarks job)) := by
  refine ⟨?_, hperm.filterMap _, failureMessageOf_eq_concat _, failureMessageOf_eq_concat _⟩
  have h1 : (statusBenchmarks job').countP (fun b => b.status == StateCompleted) =
      (statusBenchmarks job).countP (fun b => b.status == StateCompleted) := hperm.countP_eq _
  have h2 : (statusBenchmarks job').countP (fun b => b.status == StateFailed) =
      (statusBenchmarks job).countP (fun b => b.status == StateFailed) := hperm.countP_eq _
  have h3 : (statusBenchmarks job').countP (fun b => b.status == StateRunning) =
      (statusBenchmarks job).countP (fun b => b.status == StateRunning) := hperm.countP_eq _
  simp only [GetOverallJobStatus, h1, h2, h3, hconfig, apply_ite Prod.fst]

/-- Witness for C8: swapping the two benchmark statuses of a
two-benchmark job (one failed with a message, one completed) keeps the
overall state and permutes the same multiset of failure lines. -/
theorem getOverallJobStatus_order_independent_witness :
    (GetOverallJobStatus
      { resource := { id := "j" }
        config := { model := { url := "u", name := "n" },
                    benchmarks := [{ id := "b1", providerID := "p1" },
                                   { id := "b2", providerID := "p2" }] }
        status := some { benchmarks :=
          [{ providerID := "p2", id := "b2", status := StateCompleted },
           { providerID := "p1", id := "b1", status := StateFailed,
             errorMessage := some { message := "oom", messageCode := "ec" } }] } }).1 =
    (GetOverallJobStatus
      { resource := { id := "j" }
        config := { model := { url := "u", name := "n" },
                    benchmarks := [{ id := "b1", providerID := "p1" },
                                   { id := "b2", providerID := "p2" }] }
        status := some { benchmarks :=
          [{ providerID := "p1", id := "b1", status := StateFailed,
             errorMessage := some { message := "oom", messageCode := "ec" } },
           { providerID := "p2", id := "b2", status := StateCompleted }] } }).1 :=
  (getOverallJobStatus_order_independent
    { resource := { id := "j" }
      config := { model := { url := "u", name := "n" },
                  benchmarks := [{ id := "b1", providerID := "p1" },
                                 { id := "b2", providerID := "p2" }] }
      status := some { benchmarks :=
        [{ providerID := "p1", id := "b1", status := StateFailed,
           errorMessage := some { message := "oom", messageCode := "ec" } },
         { providerID := "p2", id := "b2", status := StateCompleted }] } }
    { resource := { id := "j" }
      config := { model := { url := "u", name := "n" },
                  benchmarks := [{ id := "b1", providerID := "p1" },
                                 { id := "b2", providerID := "p2" }] }
      status := some { benchmarks :=
        [{ providerID := "p2", id := "b2", status := StateCompleted },
         { providerID := "p1", id := "b1", status := StateFailed,
           errorMessage := some { message := "oom", messageCode := "ec" } }] } }
    rfl (List.Perm.swap _ _ _)).1

/-! ## Claims about the job store -/

lemma getOverallState_ok_eq {s v : String} (h : GetOverallState s = .ok v) : v = s := by
  unfold GetOverallState at h
  split_ifs at h with h1 h2 h3 h4 h5 h6 <;>
    injection h with hv <;> subst hv <;>
    first
    | (exact (beq_iff_eq.mp h1).symm)
    | (exact (beq_iff_eq.mp h2).symm)
    | (exact (beq_iff_eq.mp h3).symm)
    | (exact (beq_iff_eq.mp h4).symm)
    | (exact (beq_iff_eq.mp h5).symm)
    | (exact (beq_iff_eq.mp h6).symm)

lemma findRow_append_none {db : DB} {id : String} (row : DBRow)
    (h : findRow db id = none) (hid : (row.id == id) = true) :
    findRow (db ++ [row]) id = some row := by
  induction db with
  | nil => simp [findRow, hid]
  | cons r rest ih =>
    rcases hr : (r.id == id) with _ | _
    · simp only [findRow, hr] at h
      simp only [Bool.false_eq_true, if_false] at h
      simp only [List.cons_append, findRow, hr, Bool.false_eq_true, if_false]
      exact ih h
    · rw [findRow, hr] at h
      simp at h

lemma findRow_map_update (db : DB) (id : String) (status : OverallState)
    (entity : EvaluationJobEntity) :
    findRow (db.map (fun row =>
      if row.id == id then { row with status := status, blob := .entity entity } else row)) id =
      (findRow db id).map (fun row => { row with status := status, blob := .entity entity }) := by
  induction db with
  | nil => rfl
  | cons r rest ih =>
    rcases hr : (r.id == id) with _ | _
    · simp only [List.map_cons, findRow, hr, Bool.false_eq_true, if_false]
      exact ih
    · simp only [List.map_cons, findRow, hr, eq_self_iff_true, if_true, Option.map_some]
      rfl

/-- The resource `getEvaluationJobTransactional` returns for a row that
unmarshals and carries a config, in normal form. -/
lemma get_ok_of_row {db : DB} {id : String} {row : DBRow} {entity : EvaluationJobEntity}
    {config : EvaluationJobConfig}
    (hf : findRow db id = some row) (hb : row.blob = .entity entity)
    (hc : entity.config = some config) :
    getEvaluationJobTransactional db id = .ok {
      resource := {
        id := row.id
        tenant := "TODO"
        createdAt := row.createdAt
        updatedAt := row.updatedAt
        mlflowExperimentID := row.experimentID
        message := (entity.status.getD {}).message }
      config := config
      status := some { entity.status.getD {} with state :=
        (if row.status != "" then
          match GetOverallState row.status with
          | .ok s => s
          | .error _ => (entity.status.getD {}).state
         else (entity.status.getD {}).state) }
      results := entity.results } := by
  simp only [getEvaluationJobTransactional, hf, hb, jsonUnmarshalEntity,
    constructEvaluationResource, hc]

/-- Inversion of a successful `getEvaluationJobTransactional`. -/
lemma get_ok_inversion {db : DB} {id : String} {job : EvaluationJobResource}
    (h : getEvaluationJobTransactional db id = .ok job) :
    ∃ row entity, findRow db id = some row ∧ row.blob = .entity entity ∧
      entity.config = some job.config ∧ job.results = entity.results := by
  rcases hf : findRow db id with _ | row
  · simp only [getEvaluationJobTransactional, hf] at h
    cases h
  · rcases hb : row.blob with raw | entity
    · simp only [getEvaluationJobTransactional, hf, hb, jsonUnmarshalEntity] at h
      cases h
    · rcases hc : entity.config with _ | config
      · simp only [getEvaluationJobTransactional, hf, hb, jsonUnmarshalEntity,
          constructEvaluationResource, hc] at h
        cases h
      · simp only [getEvaluationJobTransactional, hf, hb, jsonUnmarshalEntity,
          constructEvaluationResource, hc, Except.ok.injEq] at h
        subst h
        exact ⟨row, entity, rfl, hb, by rw [hc], rfl⟩

/-- C5: creating a job and reading it back with the assigned id yields
a resource whose config equals the input config field for field and
whose overall state is pending. -/
theorem create_get_roundtrip (db : DB) (evaluation : EvaluationJobResource)
    (hfresh : findRow db evaluation.resource.id = none) :
    ∃ db1 job, CreateEvaluationJob db evaluation = .ok db1 ∧
      GetEvaluationJob db1 evaluation.resource.id = .ok job ∧
      job.config = evaluation.config ∧
      jobState job = OverallStatePending := by
  have hget := get_ok_of_row
    (findRow_append_none (createdRow evaluation) hfresh (by simp [createdRow])) rfl rfl
  exact ⟨db ++ [createdRow evaluation], _, rfl, hget, rfl, rfl⟩

/-- Witness for C5: a concrete one-benchmark job created in an empty
store reads back with its config and state pending. -/
theorem create_get_roundtrip_witness :
    ∃ db1 job,
      CreateEvaluationJob []
        { resource := { id := "job-9" }
          config := { model := { url := "http://m", name := "m" },
                      benchmarks := [{ id := "arc_easy", providerID := "pA" }] } } = .ok db1 ∧
      GetEvaluationJob db1 "job-9" = .ok job ∧
      job.config =
        ({ model := { url := "http://m", name := "m" },
           benchmarks := [{ id := "arc_easy", providerID := "pA" }] } : EvaluationJobConfig) ∧
      jobState job = OverallStatePending :=
  create_get_roundtrip []
    { resource := { id := "job-9" }
      config := { model := { url := "http://m", name := "m" },
                  benchmarks := [{ id := "arc_easy", providerID := "pA" }] } }
    rfl

/-- C10 (implicit): the guarded status-update operation is a successful
no-op on a cancelled job, for every requested target state and message
— cancelled is effectively terminal for this operation. -/
theorem cancelled_job_status_update_noop (db : DB) (id : String) (state : OverallState)
    (message : Option MessageInfo) (job : EvaluationJobResource)
    (hget : getEvaluationJobTransactional db id = .ok job)
    (hcancelled : jobState job = OverallStateCancelled) :
    UpdateEvaluationJobStatus db id state message = .ok db := by
  simp only [UpdateEvaluationJobStatus, withTransaction, hget]
  rw [if_pos (show (jobState job == OverallStateCancelled) = true by simp [hcancelled])]

/-- Witness for C10: updating a cancelled one-row store to any target
state returns success with the store unchanged. -/
theorem cancelled_job_status_update_noop_witness :
    UpdateEvaluationJobStatus
      [{ id := "j", tenant := "t", createdAt := 0, updatedAt := 0,
         status := "cancelled", experimentID := "",
         blob := .entity {
           config := some { model := { url := "u", name := "n" },
                            benchmarks := [{ id := "b", providerID := "p" }] }
           status := some { state := OverallStateCancelled }
           results := none } }] "j" OverallStateRunning none =
      .ok [{ id := "j", tenant := "t", createdAt := 0, updatedAt := 0,
             status := "cancelled", experimentID := "",
             blob := .entity {
               config := some { model := { url := "u", name := "n" },
                                benchmarks := [{ id := "b", providerID := "p" }] }
               status := some { state := OverallStateCancelled }
               results := none } }] :=
  cancelled_job_status_update_noop _ _ _ _ _ (by rfl) (by rfl)

/-- C6: the guarded status-update operation behaves by current state —
already cancelled is a successful no-op with no write; completed or
failed fails with the cannot-be-cancelled error regardless of the
requested target state; otherwise the requested state and message are
persisted. -/
theorem update_status_guarded (db : DB) (id : String) (state : OverallState)
    (message : Option MessageInfo) (job : EvaluationJobResource)
    (hget : getEvaluationJobTransactional db id = .ok job) :
    (jobState job = OverallStateCancelled →
      UpdateEvaluationJobStatus db id state message = .ok db) ∧
    (jobState job = OverallStateCompleted ∨ jobState job = OverallStateFailed →
      UpdateEvaluationJobStatus db id state message =
        .error (.jobCanNotBeCancelled [id, jobState job])) ∧
    (jobState job ≠ OverallStateCancelled → jobState job ≠ OverallStateCompleted →
      jobState job ≠ OverallStateFailed →
      ∃ db1 job1, UpdateEvaluationJobStatus db id state message = .ok db1 ∧
        getEvaluationJobTransactional db1 id = .ok job1 ∧
        jobState job1 = state ∧
        (job1.status.getD {}).message = message) := by
  refine ⟨?_, ?_, ?_⟩
  · intro hcancelled
    simp only [UpdateEvaluationJobStatus, withTransaction, hget]
    rw [if_pos (show (jobState job == OverallStateCancelled) = true by simp [hcancelled])]
  · intro hterm
    simp only [UpdateEvaluationJobStatus, withTransaction, hget]
    rw [if_neg (show ¬ ((jobState job == OverallStateCancelled) = true) by
          rcases hterm with h | h <;> rw [h] <;> decide),
        if_pos (show ((jobState job == OverallStateCompleted
            || jobState job == OverallStateFailed) = true) by
          rcases hterm with h | h <;> rw [h] <;> decide)]
  · intro h1 h2 h3
    obtain ⟨row, entity0, hfr, hbl, hcf, hres⟩ := get_ok_inversion hget
    have hop : UpdateEvaluationJobStatus db id state message =
        .ok (db.map (fun r =>
          if r.id == id then
            { r with status := state, blob := .entity {
                config := some job.config
                status := some { job.status.getD {} with state := state, message := message }
                results := job.results } }
          else r)) := by
      simp only [UpdateEvaluationJobStatus, withTransaction, hget,
        updateEvaluationJobStatusTxn, updateEvaluationJobTxn]
      rw [if_neg (show ¬ ((jobState job == OverallStateCancelled) = true) by simp [h1]),
          if_neg (show ¬ ((jobState job == OverallStateCompleted
            || jobState job == OverallStateFailed) = true) by simp [h2, h3])]
    have hfind := findRow_map_update db id state
      { config := some job.config
        status := some { job.status.getD {} with state := state, message := message }
        results := job.results }
    rw [hfr] at hfind
    have hget1 := get_ok_of_row hfind rfl rfl
    refine ⟨_, _, hop, hget1, ?_, rfl⟩
    by_cases hs : state = ""
    · subst hs; rfl
    · have hne : ((state : String) != "") = true := bne_iff_ne.mpr hs
      simp only [jobState, Option.getD_some]
      rw [if_pos hne]
      rcases hp : GetOverallState state with e | v
      · rfl
      · exact getOverallState_ok_eq hp

/-- Witness for C6: a one-row store whose job is completed rejects a
status override with the cannot-be-cancelled error. -/
theorem update_status_guarded_witness :
    UpdateEvaluationJobStatus
      [{ id := "j", tenant := "t", createdAt := 0, updatedAt := 0,
         status := "completed", experimentID := "",
         blob := .entity {
           config := some { model := { url := "u", name := "n" },
                            benchmarks := [{ id := "b", providerID := "p" }] }
           status := some { state := OverallStateCompleted }
           results := none } }] "j" OverallStateRunning none =
      .error (.jobCanNotBeCancelled ["j", "completed"]) :=
  (update_status_guarded
    [{ id := "j", tenant := "t", createdAt := 0, updatedAt := 0,
       status := "completed", experimentID := "",
       blob := .entity {
         config := some { model := { url := "u", name := "n" },
                          benchmarks := [{ id := "b", providerID := "p" }] }
         status := some { state := OverallStateCompleted }
         results := none } }] "j" OverallStateRunning none _ rfl).2.1 (Or.inl rfl)

/-- C7: reading a job fails with not-found for an id with no row; for a
row whose blob carries an entity with a config, the resource is rebuilt
from the blob and the overall state is overlaid with the queryable
status column whenever the column holds a state value, falling back to
the blob's embedded state when the column is empty. -/
theorem get_notfound_and_column_overlay (db : DB) (id : String) :
    (findRow db id = none →
      getEvaluationJobTransactional db id =
        .error (.resourceNotFound ["evaluation job", id])) ∧
    (∀ row entity config, findRow db id = some row → row.blob = .entity entity →
      entity.config = some config →
      ∃ job, getEvaluationJobTransactional db id = .ok job ∧
        job.config = config ∧
        job.results = entity.results ∧
        job.resource.id = row.id ∧
        (∀ s, GetOverallState row.status = .ok s → jobState job = s) ∧
        (row.status = "" → jobState job = (entity.status.getD {}).state)) := by
  constructor
  · intro h
    simp only [getEvaluationJobTransactional, h]
  · intro row entity config hf hb hc
    refine ⟨_, get_ok_of_row hf hb hc, rfl, rfl, rfl, ?_, ?_⟩
    · intro s hp
      have hnz : row.status ≠ "" := by
        intro h0
        have hempty : ∃ msg, GetOverallState "" = .error msg := ⟨_, rfl⟩
        obtain ⟨msg, hmsg⟩ := hempty
        rw [h0, hmsg] at hp
        cases hp
      have hne : (row.status != "") = true := bne_iff_ne.mpr hnz
      simp only [jobState, Option.getD_some]
      rw [if_pos hne, hp]
    · intro h0
      simp only [jobState, Option.getD_some]
      rw [h0]
      rfl

/-- Witness for C7: a column holding "running" over a blob embedding
"pending" reads back as running, and a get on an empty store is
not-found. -/
theorem get_notfound_and_column_overlay_witness :
    (∃ job, getEvaluationJobTransactional
      [{ id := "j", tenant := "t", createdAt := 0, updatedAt := 0,
         status := "running", experimentID := "",
         blob := .entity {
           config := some { model := { url := "u", name := "n" },
                            benchmarks := [{ id := "b", providerID := "p" }] }
           status := some { state := OverallStatePending }
           results := none } }] "j" = .ok job ∧ jobState job = OverallStateRunning) ∧
    getEvaluationJobTransactional [] "nope" =
      .error (.resourceNotFound ["evaluation job", "nope"]) := by
  constructor
  · obtain ⟨job, hget, _, _, _, hov, _⟩ :=
      (get_notfound_and_column_overlay
        [{ id := "j", tenant := "t", createdAt := 0, updatedAt := 0,
           status := "running", experimentID := "",
           blob := .entity {
             config := some { model := { url := "u", name := "n" },
                              benchmarks := [{ id := "b", providerID := "p" }] }
             status := some { state := OverallStatePending }
             results := none } }] "j").2
        _ _ _ rfl rfl rfl
    exact ⟨job, hget, hov OverallStateRunning rfl⟩
  · exact (get_notfound_and_column_overlay [] "nope").1 rfl

/-- An erroring transaction body never touches the table: every error
path of `UpdateEvaluationJobBody` returns before the single UPDATE. -/
lemma updateBody_error_state (db : DB) (id : String) (runStatus : StatusEvent)
    (e : ServiceError) (db' : DB)
    (h : UpdateEvaluationJobBody db id runStatus = (.error e, db')) : db' = db := by
  rcases hg : getEvaluationJobTransactional db id with eg | job
  · simp only [UpdateEvaluationJobBody, hg, Prod.mk.injEq] at h
    exact h.2.symm
  · rcases hv : ValidateBenchmarkExists job runStatus with e1 | u
    · simp only [UpdateEvaluationJobBody, hg, hv, Prod.mk.injEq] at h
      exact h.2.symm
    · rcases hterm : (runStatus.benchmarkStatusEvent.status == StateCompleted
        || runStatus.benchmarkStatusEvent.status == StateFailed
        || runStatus.benchmarkStatusEvent.status == StateCancelled) with _ | _
      · simp only [UpdateEvaluationJobBody, hg, hv, hterm, Bool.false_eq_true, if_false,
          updateEvaluationJobTxn, Prod.mk.injEq] at h
        exact Except.noConfusion h.1
      · rcases hr : UpdateBenchmarkResults
            (UpdateBenchmarkStatus job runStatus
              { providerID := runStatus.benchmarkStatusEvent.providerID
                id := runStatus.benchmarkStatusEvent.id
                status := runStatus.benchmarkStatusEvent.status
                errorMessage := runStatus.benchmarkStatusEvent.errorMessage
                startedAt := runStatus.benchmarkStatusEvent.startedAt
                completedAt := runStatus.benchmarkStatusEvent.completedAt })
            runStatus
            { id := runStatus.benchmarkStatusEvent.id
              providerID := runStatus.benchmarkStatusEvent.providerID
              metrics := runStatus.benchmarkStatusEvent.metrics
              artifacts := runStatus.benchmarkStatusEvent.artifacts
              mlflowRunID := runStatus.benchmarkStatusEvent.mlflowRunID
              logsPath := runStatus.benchmarkStatusEvent.logsPath } with e2 | job2
        · simp only [UpdateEvaluationJobBody, hg, hv, hterm, if_true, hr, Prod.mk.injEq] at h
          exact h.2.symm
        · simp only [UpdateEvaluationJobBody, hg, hv, hterm, if_true, hr,
            updateEvaluationJobTxn, Prod.mk.injEq] at h
          exact Except.noConfusion h.1

/-- C3: the status-event callback path is atomic — whenever any step of
load, validate, status update, results update or persist fails, the
operation returns that step's error, the transaction body has not
modified the table at the point of failure, and the persisted state a
caller observes is the original one. -/
theorem apply_status_event_atomic (db : DB) (id : String) (runStatus : StatusEvent)
    (e : ServiceError) (h : UpdateEvaluationJob db id runStatus = .error e) :
    UpdateEvaluationJobBody db id runStatus = (.error e, db) ∧
    persistedAfter db (UpdateEvaluationJob db id runStatus) = db := by
  have hb : ∃ db', UpdateEvaluationJobBody db id runStatus = (.error e, db') := by
    simp only [UpdateEvaluationJob, withTransaction] at h
    rcases hbody : UpdateEvaluationJobBody db id runStatus with ⟨r, db2⟩
    rw [hbody] at h
    rcases r with e2 | u
    · injection h with he
      exact ⟨db2, by rw [he]⟩
    · cases h
  obtain ⟨db', hbody⟩ := hb
  have hdb := updateBody_error_state db id runStatus e db' hbody
  subst hdb
  refine ⟨hbody, ?_⟩
  rw [h]
  rfl

/-- Witness for C3: a status event against an empty store fails with
not-found and leaves the (empty) store untouched. -/
theorem apply_status_event_atomic_witness :
    UpdateEvaluationJobBody [] "j"
      { benchmarkStatusEvent := { providerID := "p", id := "b", status := StateRunning } } =
      (.error (.resourceNotFound ["evaluation job", "j"]), []) ∧
    persistedAfter [] (UpdateEvaluationJob [] "j"
      { benchmarkStatusEvent := { providerID := "p", id := "b", status := StateRunning } }) = [] :=
  apply_status_event_atomic [] "j"
    { benchmarkStatusEvent := { providerID := "p", id := "b", status := StateRunning } }
    (.resourceNotFound ["evaluation job", "j"]) rfl

/-- A successful `ValidateBenchmarkExists` means the composite key is
in the configured benchmark list. -/
lemma validate_ok_any {job : EvaluationJobResource} {ev : StatusEvent}
    (h : ValidateBenchmarkExists job ev = .ok ()) :
    (job.config.benchmarks.any (fun b => b.id == ev.benchmarkStatusEvent.id
      && b.providerID == ev.benchmarkStatusEvent.providerID)) = true := by
  rcases ha : (job.config.benchmarks.any (fun b => b.id == ev.benchmarkStatusEvent.id
      && b.providerID == ev.benchmarkStatusEvent.providerID)) with _ | _
  · simp only [ValidateBenchmarkExists, ha, Bool.false_eq_true, if_false] at h
    exact Except.noConfusion h
  · rfl

/-- A composite key present in the configured benchmark list validates. -/
lemma validate_ok_of_any {job : EvaluationJobResource} {ev : StatusEvent}
    (ha : (job.config.benchmarks.any (fun b => b.id == ev.benchmarkStatusEvent.id
      && b.providerID == ev.benchmarkStatusEvent.providerID)) = true) :
    ValidateBenchmarkExists job ev = .ok () := by
  simp only [ValidateBenchmarkExists, ha, if_true]

/-- A successful `UpdateBenchmarkResults` appends the result and leaves
the rest of the job unchanged. -/
lemma updateBenchmarkResults_ok {job job2 : EvaluationJobResource} {ev : StatusEvent}
    {r : BenchmarkResult} (h : UpdateBenchmarkResults job ev r = .ok job2) :
    job2.config = job.config ∧ job2.resource = job.resource ∧
    job2.results = some { benchmarks := (job.results.getD {}).benchmarks ++ [r] } := by
  rcases ha : ((job.results.getD {}).benchmarks.any (fun b => b.id == ev.benchmarkStatusEvent.id
      && b.providerID == ev.benchmarkStatusEvent.providerID)) with _ | _
  · simp only [UpdateBenchmarkResults, ha, Bool.false_eq_true, if_false,
      Except.ok.injEq] at h
    subst h
    exact ⟨rfl, rfl, rfl⟩
  · simp only [UpdateBenchmarkResults, ha, if_true] at h
    exact Except.noConfusion h

/-- A composite key with an already-recorded result makes
`UpdateBenchmarkResults` fail with the internal write-once error. -/
lemma updateBenchmarkResults_error {job : EvaluationJobResource} {ev : StatusEvent}
    {r : BenchmarkResult}
    (ha : ((job.results.getD {}).benchmarks.any (fun b => b.id == ev.benchmarkStatusEvent.id
      && b.providerID == ev.benchmarkStatusEvent.providerID)) = true) :
    UpdateBenchmarkResults job ev r = .error (.internalServerError
      ["Benchmark result already exists for benchmark " ++ ev.benchmarkStatusEvent.id
        ++ " in job " ++ job.resource.id]) := by
  simp only [UpdateBenchmarkResults, ha, if_true]

/-- Shape of the table after a successful terminal status event: the
job's row got the recomputed status column and an entity blob whose
config still contains the event's composite key and whose results now
record that key. -/
lemma updateJob_ok_db1 {db : DB} {id : String} {ev : StatusEvent} {db1 : DB}
    (hterm : (ev.benchmarkStatusEvent.status == StateCompleted
      || ev.benchmarkStatusEvent.status == StateFailed
      || ev.benchmarkStatusEvent.status == StateCancelled) = true)
    (h : UpdateEvaluationJob db id ev = .ok db1) :
    ∃ (S : OverallState) (E : EvaluationJobEntity) (C : EvaluationJobConfig) (row : DBRow)
      (R : EvaluationJobResults),
      findRow db id = some row ∧
      db1 = db.map (fun r => if r.id == id then { r with status := S, blob := .entity E } else r) ∧
      E.config = some C ∧
      (C.benchmarks.any (fun b => b.id == ev.benchmarkStatusEvent.id
        && b.providerID == ev.benchmarkStatusEvent.providerID)) = true ∧
      E.results = some R ∧
      (R.benchmarks.any (fun b => b.id == ev.benchmarkStatusEvent.id
        && b.providerID == ev.benchmarkStatusEvent.providerID)) = true := by
  rcases hg : getEvaluationJobTransactional db id with eg | job
  · simp only [UpdateEvaluationJob, withTransaction, UpdateEvaluationJobBody, hg] at h
    cases h
  · rcases hv : ValidateBenchmarkExists job ev with e1 | u
    · simp only [UpdateEvaluationJob, withTransaction, UpdateEvaluationJobBody, hg, hv] at h
      cases h
    · cases u
      rcases hr : UpdateBenchmarkResults
          (UpdateBenchmarkStatus job ev
            { providerID := ev.benchmarkStatusEvent.providerID
              id := ev.benchmarkStatusEvent.id
              status := ev.benchmarkStatusEvent.status
              errorMessage := ev.benchmarkStatusEvent.errorMessage
              startedAt := ev.benchmarkStatusEvent.startedAt
              completedAt := ev.benchmarkStatusEvent.completedAt })
          ev
          { id := ev.benchmarkStatusEvent.id
            providerID := ev.benchmarkStatusEvent.providerID
            metrics := ev.benchmarkStatusEvent.metrics
            artifacts := ev.benchmarkStatusEvent.artifacts
            mlflowRunID := ev.benchmarkStatusEvent.mlflowRunID
            logsPath := ev.benchmarkStatusEvent.logsPath } with e2 | job2
      · simp only [UpdateEvaluationJob, withTransaction, UpdateEvaluationJobBody, hg, hv,
          hterm, if_true, hr] at h
        cases h
      · simp only [UpdateEvaluationJob, withTransaction, UpdateEvaluationJobBody, hg, hv,
          hterm, if_true, hr, updateEvaluationJobTxn, Except.ok.injEq] at h
        obtain ⟨row, entity0, hfrow, _, _, _⟩ := get_ok_inversion hg
        obtain ⟨hcfg2, _, hres2⟩ := updateBenchmarkResults_ok hr
        have hcfg1 : (UpdateBenchmarkStatus job ev
            { providerID := ev.benchmarkStatusEvent.providerID
              id := ev.benchmarkStatusEvent.id
              status := ev.benchmarkStatusEvent.status
              errorMessage := ev.benchmarkStatusEvent.errorMessage
              startedAt := ev.benchmarkStatusEvent.startedAt
              completedAt := ev.benchmarkStatusEvent.completedAt }).config = job.config := rfl
        refine ⟨_, _, job2.config, row, _, hfrow, h.symm, rfl, ?_, hres2, ?_⟩
        · rw [hcfg2, hcfg1]
          exact validate_ok_any hv
        · simp [List.any_append]

/-- C2 (amended): a second terminal status event for the same composite
key makes the second call's `UpdateBenchmarkResults` fail with the
internal-error-class write-once error, the whole transaction rolls
back, and the persisted job is unchanged — the second event's benchmark
status is not recorded. -/
theorem second_terminal_event_rejected (db : DB) (id : String) (ev1 ev2 : StatusEvent)
    (db1 : DB)
    (hkeyId : ev2.benchmarkStatusEvent.id = ev1.benchmarkStatusEvent.id)
    (hkeyProv : ev2.benchmarkStatusEvent.providerID = ev1.benchmarkStatusEvent.providerID)
    (hterm1 : (ev1.benchmarkStatusEvent.status == StateCompleted
      || ev1.benchmarkStatusEvent.status == StateFailed
      || ev1.benchmarkStatusEvent.status == StateCancelled) = true)
    (hterm2 : (ev2.benchmarkStatusEvent.status == StateCompleted
      || ev2.benchmarkStatusEvent.status == StateFailed
      || ev2.benchmarkStatusEvent.status == StateCancelled) = true)
    (h1 : UpdateEvaluationJob db id ev1 = .ok db1) :
    (∃ params, UpdateEvaluationJob db1 id ev2 = .error (.internalServerError params)) ∧
    persistedAfter db1 (UpdateEvaluationJob db1 id ev2) = db1 := by
  obtain ⟨S, E, C, row, R, hfrow, hdb1, hEc, hanyC, hEr, hanyR⟩ := updateJob_ok_db1 hterm1 h1
  have hfind : findRow db1 id = some { row with status := S, blob := .entity E } := by
    rw [hdb1, findRow_map_update, hfrow]
    rfl
  obtain ⟨job2', hget2⟩ : ∃ j, getEvaluationJobTransactional db1 id = .ok j :=
    ⟨_, get_ok_of_row hfind rfl hEc⟩
  obtain ⟨row', entity', hfr', hb', hc', hres'⟩ := get_ok_inversion hget2
  rw [hfind] at hfr'
  injection hfr' with hrow'
  subst hrow'
  have hentity' : entity' = E := by
    have := hb'.symm
    injection this
  subst hentity'
  have hjc : job2'.config = C := by
    rw [hEc] at hc'
    injection hc' with h0
    exact h0.symm
  have hjr : job2'.results = some R := by rw [hres', hEr]
  have hv2 : ValidateBenchmarkExists job2' ev2 = .ok () := by
    apply validate_ok_of_any
    rw [hjc, hkeyId, hkeyProv]
    exact hanyC
  have hanyR2 : (((UpdateBenchmarkStatus job2' ev2
      { providerID := ev2.benchmarkStatusEvent.providerID
        id := ev2.benchmarkStatusEvent.id
        status := ev2.benchmarkStatusEvent.status
        errorMessage := ev2.benchmarkStatusEvent.errorMessage
        startedAt := ev2.benchmarkStatusEvent.startedAt
        completedAt := ev2.benchmarkStatusEvent.completedAt }).results.getD {}).benchmarks.any
      (fun b => b.id == ev2.benchmarkStatusEvent.id
        && b.providerID == ev2.benchmarkStatusEvent.providerID)) = true := by
    have hres0 : (UpdateBenchmarkStatus job2' ev2
        { providerID := ev2.benchmarkStatusEvent.providerID
          id := ev2.benchmarkStatusEvent.id
          status := ev2.benchmarkStatusEvent.status
          errorMessage := ev2.benchmarkStatusEvent.errorMessage
          startedAt := ev2.benchmarkStatusEvent.startedAt
          completedAt := ev2.benchmarkStatusEvent.completedAt }).results = job2'.results := rfl
    rw [hres0, hjr, Option.getD_some, hkeyId, hkeyProv]
    exact hanyR
  have herr := @updateBenchmarkResults_error _ _ {
      id := ev2.benchmarkStatusEvent.id
      providerID := ev2.benchmarkStatusEvent.providerID
      metrics := ev2.benchmarkStatusEvent.metrics
      artifacts := ev2.benchmarkStatusEvent.artifacts
      mlflowRunID := ev2.benchmarkStatusEvent.mlflowRunID
      logsPath := ev2.benchmarkStatusEvent.logsPath } hanyR2
  have hrun : UpdateEvaluationJob db1 id ev2 = .error (.internalServerError
      ["Benchmark result already exists for benchmark " ++ ev2.benchmarkStatusEvent.id
        ++ " in job " ++ (UpdateBenchmarkStatus job2' ev2
          { providerID := ev2.benchmarkStatusEvent.providerID
            id := ev2.benchmarkStatusEvent.id
            status := ev2.benchmarkStatusEvent.status
            errorMessage := ev2.benchmarkStatusEvent.errorMessage
            startedAt := ev2.benchmarkStatusEvent.startedAt
            completedAt := ev2.benchmarkStatusEvent.completedAt }).resource.id]) := by
    simp only [UpdateEvaluationJob, withTransaction, UpdateEvaluationJobBody, hget2, hv2,
      hterm2, if_true, herr]
  refine ⟨⟨_, hrun⟩, ?_⟩
  rw [hrun]
  rfl

/-- Counterexample to C2 as stated: after a completed event and a
failed event for the same key, the second call does fail with the
internal write-once error, but the benchmark status the persisted job
carries is still the first event's completed — the second event's
failed status is NOT recorded, because the erroring transaction rolls
back. -/
theorem second_terminal_event_status_not_recorded :
    (UpdateEvaluationJob exDB0 "j" exEv1).isOk = true ∧
    UpdateEvaluationJob (persistedAfter exDB0 (UpdateEvaluationJob exDB0 "j" exEv1)) "j" exEv2 =
      .error (.internalServerError
        ["Benchmark result already exists for benchmark b1 in job j"]) ∧
    ((GetEvaluationJob
        (persistedAfter (persistedAfter exDB0 (UpdateEvaluationJob exDB0 "j" exEv1))
          (UpdateEvaluationJob (persistedAfter exDB0 (UpdateEvaluationJob exDB0 "j" exEv1))
            "j" exEv2)) "j").toOption.map
      (fun job => benchmarkStatusFor job "b1" "p1")) = some (some StateCompleted) ∧
    StateCompleted ≠ StateFailed :=
  ⟨rfl, rfl, rfl, by decide⟩

/-- Witness for the amended C2: the concrete two-event scenario — the
second call fails with the internal error and the store is unchanged. -/
theorem second_terminal_event_rejected_witness :
    (∃ params, UpdateEvaluationJob (persistedAfter exDB0 (UpdateEvaluationJob exDB0 "j" exEv1))
      "j" exEv2 = .error (.internalServerError params)) ∧
    persistedAfter (persistedAfter exDB0 (UpdateEvaluationJob exDB0 "j" exEv1))
      (UpdateEvaluationJob (persistedAfter exDB0 (UpdateEvaluationJob exDB0 "j" exEv1))
        "j" exEv2) =
      persistedAfter exDB0 (UpdateEvaluationJob exDB0 "j" exEv1) :=
  second_terminal_event_rejected exDB0 "j" exEv1 exEv2 _ rfl rfl rfl rfl rfl

/-- When every row unmarshals, the list row loop succeeds, returning
exactly the constructible rows as items, one collected error and one
decrement per row whose construction failed. -/
lemma listRowsLoop_ok (rows : List DBRow)
    (h : ∀ row ∈ rows, ∃ e, row.blob = .entity e) :
    ∃ errs dec, listRowsLoop rows = .ok (rows.filterMap listRowResource, errs, dec) ∧
      errs.length = dec ∧
      (rows.filterMap listRowResource).length + dec = rows.length := by
  induction rows with
  | nil => exact ⟨[], 0, rfl, rfl, rfl⟩
  | cons row rest ih =>
    obtain ⟨e, he⟩ := h row (List.mem_cons_self row rest)
    obtain ⟨errs, dec, hloop, hlen, hsum⟩ := ih (fun r hr => h r (List.mem_cons_of_mem _ hr))
    rcases hcon : constructEvaluationResource row.status none row.id row.createdAt
        row.updatedAt row.experimentID (some e) with er | resource
    · have hlr : listRowResource row = none := by
        simp only [listRowResource, he, jsonUnmarshalEntity, hcon, Except.toOption]
      refine ⟨er :: errs, dec + 1, ?_, by simp [hlen], ?_⟩
      · simp only [listRowsLoop, he, jsonUnmarshalEntity, hcon, hloop, Except.map,
          List.filterMap_cons, hlr]
      · rw [List.filterMap_cons, hlr]
        simp only [List.length_cons]
        omega
    · have hlr : listRowResource row = some resource := by
        simp only [listRowResource, he, jsonUnmarshalEntity, hcon, Except.toOption]
      refine ⟨errs, dec, ?_, hlen, ?_⟩
      · simp only [listRowsLoop, he, jsonUnmarshalEntity, hcon, hloop, Except.map,
          List.filterMap_cons, hlr]
      · rw [List.filterMap_cons, hlr]
        simp only [List.length_cons]
        omega

/-- C4 (amended): when every row of the requested page unmarshals, List
succeeds, excluding exactly the rows whose resource construction fails,
decrementing the returned total once per excluded row and surfacing one
error per excluded row alongside the still-valid items. (A row whose
blob fails JSON unmarshalling instead fails the whole call — see the
counterexample.) -/
theorem list_partial_failure_tolerance (db : DB) (limit offset : Nat) (statusFilter : String)
    (hview : ∀ row ∈ ((db.filter (matchesFilter statusFilter)).drop offset).take limit,
      ∃ e, row.blob = .entity e) :
    ∃ (errs : List ServiceError) (dec : Nat),
      GetEvaluationJobs db limit offset statusFilter = .ok {
        items := (((db.filter (matchesFilter statusFilter)).drop offset).take limit).filterMap
          listRowResource
        totalStored := ((db.filter (matchesFilter statusFilter)).length : Int) - (dec : Int)
        errors := errs } ∧
      errs.length = dec ∧
      ((((db.filter (matchesFilter statusFilter)).drop offset).take limit).filterMap
        listRowResource).length + dec =
        (((db.filter (matchesFilter statusFilter)).drop offset).take limit).length := by
  obtain ⟨errs, dec, hloop, hlen, hsum⟩ := listRowsLoop_ok _ hview
  exact ⟨errs, dec, by simp only [GetEvaluationJobs, hloop], hlen, hsum⟩

/-- Witness for the amended C4: a two-row page where the second row's
entity has no config returns one item, one error, and a total of one. -/
theorem list_partial_failure_tolerance_witness :
    ∃ (errs : List ServiceError) (dec : Nat),
      GetEvaluationJobs [exRow1, exRowNoConfig] 10 0 "" = .ok {
        items := (((([exRow1, exRowNoConfig].filter
          (matchesFilter "")).drop 0).take 10).filterMap listRowResource)
        totalStored := ((([exRow1, exRowNoConfig].filter
          (matchesFilter "")).length : Int)) - (dec : Int)
        errors := errs } ∧
      errs.length = dec ∧
      ((((([exRow1, exRowNoConfig].filter
        (matchesFilter "")).drop 0).take 10).filterMap listRowResource)).length + dec =
        ((([exRow1, exRowNoConfig].filter (matchesFilter "")).drop 0).take 10).length :=
  list_partial_failure_tolerance [exRow1, exRowNoConfig] 10 0 ""
    (by
      intro row hr
      have hr2 : row ∈ [exRow1, exRowNoConfig] := hr
      rcases List.mem_cons.mp hr2 with h | h
      · rw [h]; exact ⟨_, rfl⟩
      · rcases List.mem_cons.mp h with h2 | h2
        · rw [h2]; exact ⟨_, rfl⟩
        · exact absurd h2 (List.not_mem_nil _))

/-- Counterexample to C4 as stated: a single row whose blob fails JSON
unmarshalling makes the entire List call fail rather than being
excluded from the page. -/
theorem list_malformed_row_fails_page :
    GetEvaluationJobs [exRow1, exRowMalformed] 10 0 "" =
      .error (.jsonUnmarshalFailed ["evaluation job", "invalid entity JSON: " ++ "oops"]) :=
  rfl

/-- C9: the cluster dispatcher submits the config map first and the
job second; when job submission fails it attempts to delete the
just-created config map, logs a cleanup failure only when it is not a
not-found, and returns the original job-creation error; when job
submission succeeds no deletion is attempted. -/
theorem run_two_step_saga (outcomes : ClusterOutcomes) (providers : List ProviderResource)
    (evaluation : EvaluationJobResource) (svcURL inClusterNs : String)
    (provider : ProviderResource) (benchmarkID : String) (cfg : JobConfig)
    (hres : resolveProviderFromEvaluation providers evaluation = .ok (provider, benchmarkID))
    (hbuild : buildJobConfig evaluation provider benchmarkID svcURL inClusterNs = .ok cfg) :
    (outcomes.createConfigMapErr = none → outcomes.createJobErr = none →
      RunEvaluationJob outcomes providers evaluation svcURL inClusterNs = {
        result := .ok ()
        actions := [.createConfigMap (buildConfigMap cfg).ns (buildConfigMap cfg).name,
                    .createJob (buildJob cfg).ns (buildJob cfg).name]
        cleanupLogs := [] }) ∧
    (∀ e, outcomes.createConfigMapErr = none → outcomes.createJobErr = some e →
      RunEvaluationJob outcomes providers evaluation svcURL inClusterNs = {
        result := .error (.clusterError e)
        actions := [.createConfigMap (buildConfigMap cfg).ns (buildConfigMap cfg).name,
                    .createJob (buildJob cfg).ns (buildJob cfg).name,
                    .deleteConfigMap (buildConfigMap cfg).ns (buildConfigMap cfg).name]
        cleanupLogs := match outcomes.deleteConfigMapErr with
          | some cleanupErr =>
            if isNotFoundErr cleanupErr then []
            else ["failed to delete configmap after job creation error"]
          | none => [] }) := by
  constructor
  · intro h1 h2
    simp only [RunEvaluationJob, hres, hbuild, h1, h2]
  · intro e h1 h2
    simp only [RunEvaluationJob, hres, hbuild, h1, h2]

/-- Witness for C9: a failing job submission with a failing (non
not-found) cleanup returns the original job-creation error, with the
three cluster calls in order and one cleanup log line. -/
theorem run_two_step_saga_witness :
    RunEvaluationJob
      { createJobErr := some (.other "boom"),
        deleteConfigMapErr := some (.other "cleanup down") }
      [exProvider] exEval "http://svc" "" = {
        result := .error (.clusterError (.other "boom"))
        actions := [.createConfigMap "default" "j-prov-b1-config",
                    .createJob "default" "j-prov-b1",
                    .deleteConfigMap "default" "j-prov-b1-config"]
        cleanupLogs := ["failed to delete configmap after job creation error"] } :=
  (run_two_step_saga
    { createJobErr := some (.other "boom"),
      deleteConfigMapErr := some (.other "cleanup down") }
    [exProvider] exEval "http://svc" "" _ _ _ rfl rfl).2 (.other "boom") rfl rfl

end EvalHub